import Mathlib

/-
Verification development for the Form-Builder repository
(src/src/components/AddQuestionForm.tsx and src/src/App.tsx).

The component AddQuestionForm is a React functional component; its state
hooks become the fields of `ComponentState`, and each event handler becomes
a function from the pre-event state (and the storage) to the post-event
state (and the storage).  React semantics embedded here: inside a single
handler, every read of a `useState` variable sees the value from the
current render, while the `setX` calls only determine the NEXT state; so a
handler is a pure function of the old state, and e.g.
`saveToLocalStorage(questions)` inside `handleSaveChanges` receives the OLD
question list even though `setQuestions` was called just before.

The browser localStorage cell for the key "questions" and the platform
functions JSON.stringify / JSON.parse are external collaborators (spec
section 2 treats the storage backend abstractly).  They are modelled at the
level of question lists rather than character strings:
`StoredString.enc qs` stands for the string `JSON.stringify qs` (such a
string is never empty and JSON.parse maps it back to a value structurally
equal to `qs`), `StoredString.emptyStr` stands for the empty string (which
is falsy in JavaScript), and `StoredString.invalid` stands for a non-empty
string that is not valid JSON (on which JSON.parse throws).  `uuidv4()` is
modelled by passing the generated identifier as an explicit argument to
`handleSaveChanges`; its global uniqueness is a hypothesis where needed.
-/

namespace FormBuilder

/-- Enum for the numberType field of AdditionalFields
(src/src/components/AddQuestionForm.tsx line 27). -/
inductive NumberType where
  | integer
  | decimal
deriving DecidableEq, Repr

/-- Interface AdditionalFields (AddQuestionForm.tsx lines 26-30).
JavaScript numbers carry no claim-relevant structure here, so min and max
are embedded as integers. -/
structure AdditionalFields where
  numberType : Option NumberType := none
  min : Option Int := none
  max : Option Int := none
deriving DecidableEq, Repr

/-- Interface Question (AddQuestionForm.tsx lines 32-39). -/
structure Question where
  id : String
  title : String
  type : String
  required : Bool
  helperText : Option String := none
  additionalFields : Option AdditionalFields := none
deriving DecidableEq, Repr

/-- A possible value of the localStorage cell for the key "questions",
quotiented to the cases the code distinguishes: a JSON encoding of a
question list, the empty string, or a non-empty unparseable string. -/
inductive StoredString where
  | enc (qs : List Question)
  | emptyStr
  | invalid
deriving DecidableEq, Repr

/-- The browser storage: the cell for the key "questions" (none when the
key is absent, i.e. getItem returns null), plus a flag modelling setItem
throwing (e.g. quota exceeded). -/
structure Store where
  writeFails : Bool := false
  cell : Option StoredString := none
deriving DecidableEq, Repr

/-- saveToLocalStorage (AddQuestionForm.tsx lines 41-50): wraps
localStorage.setItem("questions", JSON.stringify(questions)) in a promise,
resolving on success and rejecting when setItem throws.  The promise
outcome is the Except component; the cell is updated only on success. -/
def saveToLocalStorage (questions : List Question) (st : Store) :
    Except Unit Unit × Store :=
  if st.writeFails then
    (Except.error (), st)
  else
    (Except.ok (), { st with cell := some (StoredString.enc questions) })

/-- loadFromLocalStorage (AddQuestionForm.tsx lines 52-55):
`savedQuestions ? JSON.parse(savedQuestions) : []`.  A null getItem result
and the empty string are both falsy, giving []; a stored encoding parses
back to its list; an unparseable string makes JSON.parse throw a
SyntaxError, which nothing in the code catches. -/
def loadFromLocalStorage (st : Store) : Except String (List Question) :=
  match st.cell with
  | none => Except.ok []
  | some StoredString.emptyStr => Except.ok []
  | some (StoredString.enc qs) => Except.ok qs
  | some StoredString.invalid => Except.error "SyntaxError"

/-- Model of the JavaScript platform function String.prototype.trim: the
string with leading and trailing whitespace characters removed. -/
def jsTrim (s : String) : String :=
  String.mk (((s.data.dropWhile Char.isWhitespace).reverse.dropWhile
      Char.isWhitespace).reverse)

/-- The useState hooks of AddQuestionForm (AddQuestionForm.tsx lines
58-68).  `expanded : string | false` becomes an Option String (none for
false); `error` and `successMessage` are Option String (none for null).
`loading` never changes in the source and is omitted. -/
structure ComponentState where
  questions : List Question := []
  questionTitle : String := ""
  questionType : String := ""
  isRequired : Bool := false
  helperText : String := ""
  additionalFields : AdditionalFields := {}
  showForm : Bool := false
  error : Option String := none
  successMessage : Option String := none
  expanded : Option String := none
deriving DecidableEq, Repr

/-- JavaScript truthiness of `!x` for a string-or-null variable: `!error`
is true exactly when error is null or the empty string. -/
def jsFalsy (o : Option String) : Bool :=
  match o with
  | none => true
  | some s => s = ""

/-- handleAddQuestionClick (AddQuestionForm.tsx lines 70-80): guarded by
`questions.length !== 0 || !error`; when the guard passes it resets the
edit buffer, shows the new-question form and collapses every accordion.
It never touches the storage. -/
def handleAddQuestionClick (s : ComponentState) : ComponentState :=
  if s.questions.length ≠ 0 ∨ jsFalsy s.error then
    { s with questionTitle := "", questionType := "", isRequired := false,
             helperText := "", additionalFields := {},
             showForm := true, expanded := none }
  else s

/-- handleDeleteQuestion (AddQuestionForm.tsx lines 86-90): filters the
list by id, stores the filtered list in state and persists it (the promise
returned by saveToLocalStorage is ignored). -/
def handleDeleteQuestion (id : String) (s : ComponentState) (st : Store) :
    ComponentState × Store :=
  let updatedQuestions := s.questions.filter (fun q => q.id != id)
  ({ s with questions := updatedQuestions },
   (saveToLocalStorage updatedQuestions st).2)

/-- The new Question built in the `expanded === false` branch of
handleSaveChanges (AddQuestionForm.tsx lines 100-107): a fresh uuid plus
the buffer fields; helperText and additionalFields are always-present
properties of the created object. -/
def bufferQuestion (freshId : String) (s : ComponentState) : Question :=
  { id := freshId, title := s.questionTitle, type := s.questionType,
    required := s.isRequired, helperText := some s.helperText,
    additionalFields := some s.additionalFields }

/-- The per-question update applied in the `expanded` branch of
handleSaveChanges (AddQuestionForm.tsx lines 112-123): the question whose
id equals the expanded id has its fields replaced from the buffer (id
kept); every other question is unchanged. -/
def applyBufferTo (s : ComponentState) (eid : String) (q : Question) :
    Question :=
  if q.id = eid then
    { q with title := s.questionTitle, type := s.questionType,
             required := s.isRequired, helperText := some s.helperText,
             additionalFields := some s.additionalFields }
  else q

/-- handleSaveChanges (AddQuestionForm.tsx lines 92-130).  Validates that
title and type are non-empty after trimming, otherwise sets the error and
returns.  On success: when `expanded === false` it appends a new question
built from the buffer, else it maps the in-place update over the list; in
both branches it then calls `saveToLocalStorage(questions)` — the stale
list variable from the current render, NOT the updated list — ignores the
returned promise, hides the form and collapses the accordion. -/
def handleSaveChanges (freshId : String) (s : ComponentState) (st : Store) :
    ComponentState × Store :=
  if jsTrim s.questionTitle = "" ∨ jsTrim s.questionType = "" then
    ({ s with error := some "Please fill in all required fields." }, st)
  else
    match s.expanded with
    | none =>
        ({ s with questions := s.questions ++ [bufferQuestion freshId s],
                  successMessage := some "Question added successfully.",
                  showForm := false, expanded := none },
         (saveToLocalStorage s.questions st).2)
    | some eid =>
        ({ s with questions := s.questions.map (applyBufferTo s eid),
                  successMessage := some "Question updated successfully.",
                  showForm := false, expanded := none },
         (saveToLocalStorage s.questions st).2)

/-- The useEffect on [questions] (AddQuestionForm.tsx lines 149-158): after
a render in which the questions array changed, if the list is empty the
buffer fields and the expanded accordion are reset (showForm is not
touched). -/
def questionsEffect (s : ComponentState) : ComponentState :=
  if s.questions.isEmpty then
    { s with questionTitle := "", questionType := "", isRequired := false,
             helperText := "", additionalFields := {}, expanded := none }
  else s

/-- One commit round in a sequence of edits: the user fills the edit
buffer and chooses the edit target (an expanded accordion id, or none for
the new-question surface), then handleSaveChanges runs with the identifier
that uuidv4 generates for this call. -/
structure EditStep where
  freshId : String
  title : String
  type : String
  req : Bool
  helper : String
  fields : AdditionalFields := {}
  target : Option String := none
deriving DecidableEq, Repr

/-- Load the step buffer into the component state and commit it. -/
def applyStep (e : EditStep) (s : ComponentState) (st : Store) :
    ComponentState × Store :=
  handleSaveChanges e.freshId
    { s with questionTitle := e.title, questionType := e.type,
             isRequired := e.req, helperText := e.helper,
             additionalFields := e.fields, expanded := e.target } st

/-- Run a sequence of commit rounds. -/
def applySteps (steps : List EditStep) (s : ComponentState) (st : Store) :
    ComponentState × Store :=
  match steps with
  | [] => (s, st)
  | e :: rest => applySteps rest (applyStep e s st).1 (applyStep e s st).2

/-- Concrete questions reused in witness statements. -/
def qA : Question :=
  { id := "a", title := "T1", type := "text", required := false }

/-- A second concrete question for witness statements. -/
def qB : Question :=
  { id := "b", title := "T2", type := "date", required := true }

/-- The in-place update of handleSaveChanges never changes an id. -/
theorem applyBufferTo_id (s : ComponentState) (eid : String) (q : Question) :
    (applyBufferTo s eid q).id = q.id := by
  unfold applyBufferTo
  split <;> rfl

/-- Mapping the in-place update over a list leaves the id list unchanged. -/
theorem map_id_applyBufferTo (s : ComponentState) (eid : String)
    (l : List Question) :
    (l.map (applyBufferTo s eid)).map Question.id = l.map Question.id := by
  rw [List.map_map]
  exact List.map_congr_left (fun q _ => applyBufferTo_id s eid q)

/-- When the target id occurs nowhere in the list, the in-place update
leaves every element unchanged. -/
theorem map_applyBufferTo_of_not_mem (s : ComponentState) (eid : String)
    (l : List Question) (h : eid ∉ l.map Question.id) :
    l.map (applyBufferTo s eid) = l := by
  have : ∀ q ∈ l, applyBufferTo s eid q = q := by
    intro q hq
    unfold applyBufferTo
    rw [if_neg]
    intro hEq
    exact h (List.mem_map.mpr ⟨q, hq, hEq⟩)
  calc l.map (applyBufferTo s eid) = l.map id := List.map_congr_left this
    _ = l := List.map_id l

/-- C1.  The claim says the list written to the store by a successful
commit equals the resulting in-memory list.  The code instead calls
`saveToLocalStorage(questions)` with the stale render-time variable (line
127), while `setQuestions` already received the appended/updated list; the
delete handler (line 89) persists its updated list correctly, and the spec
states the resulting list is persisted, so the stale write is a slip in
the code.  Evaluated here at the failing input: an empty list, a valid
buffer and the new-question surface.  Memory ends with the new question,
but storage ends with the encoding of the OLD (empty) list, and the
success message and collapsed surface show the commit was the successful
path. -/
theorem C1_commit_persists_stale_list :
    (handleSaveChanges "q1"
        { questionTitle := "Name", questionType := "text" } { }).1.questions
      = [bufferQuestion "q1" { questionTitle := "Name", questionType := "text" }] ∧
    (handleSaveChanges "q1"
        { questionTitle := "Name", questionType := "text" } { }).2.cell
      = some (StoredString.enc []) ∧
    (handleSaveChanges "q1"
        { questionTitle := "Name", questionType := "text" } { }).1.successMessage
      = some "Question added successfully." ∧
    (handleSaveChanges "q1"
        { questionTitle := "Name", questionType := "text" } { }).1.expanded = none ∧
    (handleSaveChanges "q1"
        { questionTitle := "Name", questionType := "text" } { }).2.cell
      ≠ some (StoredString.enc (handleSaveChanges "q1"
          { questionTitle := "Name", questionType := "text" } { }).1.questions) := by
  refine ⟨rfl, rfl, rfl, rfl, ?_⟩
  decide

/-- C2 counterexample.  The claim says unparseable stored data yields the
empty list and never propagates an error; but loadFromLocalStorage calls
JSON.parse with no try/catch, so an invalid stored string makes load throw
rather than return []. -/
theorem C2_cex_unparseable_throws :
    loadFromLocalStorage { cell := some StoredString.invalid }
        ≠ Except.ok ([] : List Question) ∧
    loadFromLocalStorage { cell := some StoredString.invalid }
        = Except.error "SyntaxError" :=
  And.intro (fun h => nomatch h) rfl

/-- C2 (amended): load returns the stored list when the cell holds a JSON
encoding of a question list, and the empty list when the key is absent or
the stored string is empty (both falsy); when the stored string is
unparseable, JSON.parse throws and the SyntaxError propagates out of
load. -/
theorem C2_load_characterization (qs : List Question) (w : Bool) :
    loadFromLocalStorage { writeFails := w, cell := none } = Except.ok [] ∧
    loadFromLocalStorage { writeFails := w, cell := some StoredString.emptyStr }
        = Except.ok [] ∧
    loadFromLocalStorage { writeFails := w, cell := some (StoredString.enc qs) }
        = Except.ok qs ∧
    loadFromLocalStorage { writeFails := w, cell := some StoredString.invalid }
        = Except.error "SyntaxError" :=
  ⟨rfl, rfl, rfl, rfl⟩

/-- C3: a commit whose buffer has a blank title or a blank type only sets
the error message; questions, the edit target, the edit surface and the
storage are all left untouched. -/
theorem C3_invalid_commit_noop (freshId : String) (s : ComponentState)
    (st : Store)
    (h : jsTrim s.questionTitle = "" ∨ jsTrim s.questionType = "") :
    handleSaveChanges freshId s st =
      ({ s with error := some "Please fill in all required fields." }, st) := by
  unfold handleSaveChanges
  rw [if_pos h]

/-- Witness for C3 at a concrete state: blank title, open new-question
surface. -/
theorem C3_invalid_commit_noop_witness :
    (jsTrim "" = "" ∨ jsTrim "text" = "") ∧
    handleSaveChanges "f"
        { questionTitle := "", questionType := "text", showForm := true } { } =
      ({ questionTitle := "", questionType := "text", showForm := true,
         error := some "Please fill in all required fields." }, { }) :=
  ⟨Or.inl rfl,
   C3_invalid_commit_noop "f"
     { questionTitle := "", questionType := "text", showForm := true } { }
     (Or.inl rfl)⟩

/-- C5: deleting an id filters exactly the questions with that id out of
the list, persists the filtered list immediately, is a silent no-op on the
list when the id is absent, never sets the error state, and a second
delete of the same id leaves the list of the first delete unchanged. -/
theorem C5_delete_removes_persists_idempotent (id : String)
    (s : ComponentState) (st : Store) (h : st.writeFails = false) :
    (handleDeleteQuestion id s st).1.questions
        = s.questions.filter (fun q => q.id != id) ∧
    (handleDeleteQuestion id s st).2.cell
        = some (StoredString.enc (handleDeleteQuestion id s st).1.questions) ∧
    (id ∉ s.questions.map Question.id →
      (handleDeleteQuestion id s st).1.questions = s.questions) ∧
    (handleDeleteQuestion id s st).1.error = s.error ∧
    (handleDeleteQuestion id (handleDeleteQuestion id s st).1
        (handleDeleteQuestion id s st).2).1.questions
      = (handleDeleteQuestion id s st).1.questions := by
  refine ⟨rfl, ?_, ?_, rfl, ?_⟩
  · show (saveToLocalStorage (s.questions.filter (fun q => q.id != id)) st).2.cell
        = some (StoredString.enc (s.questions.filter (fun q => q.id != id)))
    unfold saveToLocalStorage
    rw [if_neg (by simp [h])]
  · intro habs
    show s.questions.filter (fun q => q.id != id) = s.questions
    refine List.filter_eq_self.mpr fun q hq => ?_
    exact bne_iff_ne.mpr fun hEq => habs (List.mem_map.mpr ⟨q, hq, hEq⟩)
  · show (s.questions.filter (fun q => q.id != id)).filter (fun q => q.id != id)
        = s.questions.filter (fun q => q.id != id)
    exact List.filter_eq_self.mpr fun q hq => (List.mem_filter.mp hq).2

/-- Concrete pre-state for the C5 witness: two stored questions. -/
def sC5 : ComponentState := { questions := [qA, qB] }

/-- Witness for C5: delete id "a" out of [qA, qB] on a working store. -/
theorem C5_delete_witness :
    ({ } : Store).writeFails = false ∧
    ((handleDeleteQuestion "a" sC5 { }).1.questions
        = sC5.questions.filter (fun q => q.id != "a") ∧
    (handleDeleteQuestion "a" sC5 { }).2.cell
        = some (StoredString.enc (handleDeleteQuestion "a" sC5 { }).1.questions) ∧
    ("a" ∉ sC5.questions.map Question.id →
      (handleDeleteQuestion "a" sC5 { }).1.questions = sC5.questions) ∧
    (handleDeleteQuestion "a" sC5 { }).1.error = sC5.error ∧
    (handleDeleteQuestion "a" (handleDeleteQuestion "a" sC5 { }).1
        (handleDeleteQuestion "a" sC5 { }).2).1.questions
      = (handleDeleteQuestion "a" sC5 { }).1.questions) :=
  ⟨rfl, C5_delete_removes_persists_idempotent "a" sC5 { } rfl⟩

/-- C6 counterexample.  The claim says that deleting the question that is
the active edit target clears the edit surface.  With two stored questions
and the first one expanded for editing, deleting it leaves `expanded`
still holding the deleted id (the useEffect only resets the surface when
the list becomes empty), so the edit target is not cleared. -/
theorem C6_cex_stale_edit_target :
    ({ questions := [qA, qB], expanded := some "a" } : ComponentState).expanded
        = some "a" ∧
    (questionsEffect (handleDeleteQuestion "a"
        { questions := [qA, qB], expanded := some "a" } { }).1).questions = [qB] ∧
    (questionsEffect (handleDeleteQuestion "a"
        { questions := [qA, qB], expanded := some "a" } { }).1).expanded ≠ none := by
  refine ⟨rfl, ?_, ?_⟩ <;> decide

/-- C6 (amended): after deleting the active edit target and running the
useEffect on [questions], the edit surface is cleared only when the delete
emptied the list; otherwise `expanded` keeps the (now dangling) deleted
id.  In both cases no question with that id remains, so no existing
question is expanded. -/
theorem C6_delete_active_target_amended (id : String) (s : ComponentState)
    (st : Store) (h : s.expanded = some id) :
    ((questionsEffect (handleDeleteQuestion id s st).1).questions = [] →
      (questionsEffect (handleDeleteQuestion id s st).1).expanded = none) ∧
    ((questionsEffect (handleDeleteQuestion id s st).1).questions ≠ [] →
      (questionsEffect (handleDeleteQuestion id s st).1).expanded = some id) ∧
    id ∉ (questionsEffect (handleDeleteQuestion id s st).1).questions.map
        Question.id := by
  have hnotmem : id ∉ (s.questions.filter (fun q => q.id != id)).map Question.id := by
    intro hmem
    rcases List.mem_map.mp hmem with ⟨q, hq, hid⟩
    exact bne_iff_ne.mp (List.mem_filter.mp hq).2 hid
  by_cases hcase : (handleDeleteQuestion id s st).1.questions.isEmpty = true
  · have heff : questionsEffect (handleDeleteQuestion id s st).1
        = { (handleDeleteQuestion id s st).1 with
            questionTitle := "", questionType := "", isRequired := false,
            helperText := "", additionalFields := {}, expanded := none } := by
      unfold questionsEffect
      rw [if_pos hcase]
    rw [heff]
    exact ⟨fun _ => rfl, fun hne => absurd (List.isEmpty_iff.mp hcase) hne,
           hnotmem⟩
  · have heff : questionsEffect (handleDeleteQuestion id s st).1
        = (handleDeleteQuestion id s st).1 := by
      unfold questionsEffect
      rw [if_neg hcase]
    rw [heff]
    refine ⟨fun hempty => absurd (by rw [hempty]; rfl) hcase, fun _ => h, hnotmem⟩

/-- Witness for C6 (amended), covering the non-emptying branch: delete the
expanded question "a" while "b" remains. -/
theorem C6_delete_active_target_witness :
    ({ questions := [qA, qB], expanded := some "a" } : ComponentState).expanded
        = some "a" ∧
    (((questionsEffect (handleDeleteQuestion "a"
          { questions := [qA, qB], expanded := some "a" } { }).1).questions = [] →
        (questionsEffect (handleDeleteQuestion "a"
          { questions := [qA, qB], expanded := some "a" } { }).1).expanded = none) ∧
    ((questionsEffect (handleDeleteQuestion "a"
          { questions := [qA, qB], expanded := some "a" } { }).1).questions ≠ [] →
        (questionsEffect (handleDeleteQuestion "a"
          { questions := [qA, qB], expanded := some "a" } { }).1).expanded
          = some "a") ∧
    "a" ∉ (questionsEffect (handleDeleteQuestion "a"
          { questions := [qA, qB], expanded := some "a" } { }).1).questions.map
        Question.id) :=
  ⟨rfl, C6_delete_active_target_amended "a"
      { questions := [qA, qB], expanded := some "a" } { } rfl⟩

/-- C7 counterexample.  The claim says startNewQuestion works from every
state, but handleAddQuestionClick is guarded by
`questions.length !== 0 || !error`: with an empty list and a visible error
notification the click does nothing — the form is not opened and the
buffer is not reset. -/
theorem C7_cex_guard_blocks :
    (handleAddQuestionClick
        { questionTitle := "left",
          error := some "Please fill in all required fields." }).showForm
      = false ∧
    (handleAddQuestionClick
        { questionTitle := "left",
          error := some "Please fill in all required fields." }).questionTitle
      = "left" := by
  decide

/-- C7 (amended): when the questions list is non-empty or no error is
showing (JavaScript-falsy error), the click resets the buffer to empty
defaults, opens the new-question surface and collapses every accordion;
when the list is empty and an error is showing, the click has no effect.
In both cases the in-memory list is untouched (and the handler never
calls the store). -/
theorem C7_start_new_characterization (s : ComponentState) :
    ((s.questions.length ≠ 0 ∨ jsFalsy s.error) →
      handleAddQuestionClick s =
        { s with questionTitle := "", questionType := "", isRequired := false,
                 helperText := "", additionalFields := {},
                 showForm := true, expanded := none }) ∧
    (¬ (s.questions.length ≠ 0 ∨ jsFalsy s.error) →
      handleAddQuestionClick s = s) ∧
    (handleAddQuestionClick s).questions = s.questions := by
  refine ⟨fun h => ?_, fun h => ?_, ?_⟩
  · unfold handleAddQuestionClick
    rw [if_pos h]
  · unfold handleAddQuestionClick
    rw [if_neg h]
  · unfold handleAddQuestionClick
    split <;> rfl

/-- Concrete pre-state for the C7 witness: one stored question, stale
buffer text, an error showing. -/
def sC7 : ComponentState :=
  { questions := [qA], questionTitle := "left",
    error := some "Please fill in all required fields." }

/-- Witness for C7 (amended): with a non-empty list the click opens and
resets the new-question surface. -/
theorem C7_start_new_witness :
    (sC7.questions.length ≠ 0 ∨ jsFalsy sC7.error) ∧
    handleAddQuestionClick sC7 =
      { sC7 with questionTitle := "", questionType := "", isRequired := false,
                 helperText := "", additionalFields := {},
                 showForm := true, expanded := none } :=
  ⟨by decide, (C7_start_new_characterization sC7).1 (by decide)⟩

/-- C8 counterexample.  The claim says save applied to the result of
load() leaves the storage content unchanged; but when the key is absent,
load() gives [] and saving [] creates the key with the encoding of [], so
the cell changes from none to a stored value. -/
theorem C8_cex_save_after_load_creates_key :
    loadFromLocalStorage { } = Except.ok ([] : List Question) ∧
    (saveToLocalStorage [] { }).2.cell ≠ ({ } : Store).cell := by
  exact ⟨rfl, by decide⟩

/-- C8 (amended): for every list Q and every store whose write succeeds,
load after save(Q) returns exactly Q; and save of the loaded list leaves
the stored string unchanged whenever the cell already holds a saved
encoding (when the key is absent or the stored string is empty, the
composite creates the key with the encoding of the same represented
list). -/
theorem C8_roundtrip_amended (qs : List Question) (st : Store)
    (h : st.writeFails = false) :
    loadFromLocalStorage (saveToLocalStorage qs st).2 = Except.ok qs ∧
    (st.cell = some (StoredString.enc qs) →
      (saveToLocalStorage qs st).2.cell = st.cell ∧
      loadFromLocalStorage st = Except.ok qs) := by
  have hsave : (saveToLocalStorage qs st).2
      = { st with cell := some (StoredString.enc qs) } := by
    unfold saveToLocalStorage
    rw [if_neg (by simp [h])]
  constructor
  · rw [hsave]
    rfl
  · intro hcell
    refine ⟨by rw [hsave, hcell], ?_⟩
    unfold loadFromLocalStorage
    rw [hcell]

/-- Concrete store for the C8 witness: the cell already holds the
encoding of [qA]. -/
def stC8 : Store := { cell := some (StoredString.enc [qA]) }

/-- Witness for C8 (amended) at [qA] over stC8. -/
theorem C8_roundtrip_witness :
    stC8.writeFails = false ∧
    (loadFromLocalStorage (saveToLocalStorage [qA] stC8).2 = Except.ok [qA] ∧
    (stC8.cell = some (StoredString.enc [qA]) →
      (saveToLocalStorage [qA] stC8).2.cell = stC8.cell ∧
      loadFromLocalStorage stC8 = Except.ok [qA])) :=
  ⟨rfl, C8_roundtrip_amended [qA] stC8 rfl⟩

/-- C9 counterexample.  The claim says a failing store write surfaces a
distinct error state.  With a store whose setItem throws, a valid commit
leaves the error state untouched (none), shows the ordinary success
message, keeps the new question only in memory, and the cell stays
unwritten: the rejected promise from saveToLocalStorage is ignored by
handleSaveChanges, so the failure is silent. -/
theorem C9_cex_no_error_surfaced :
    (handleSaveChanges "q1" { questionTitle := "Name", questionType := "text" }
        { writeFails := true }).1.error = none ∧
    (handleSaveChanges "q1" { questionTitle := "Name", questionType := "text" }
        { writeFails := true }).1.questions
      = [bufferQuestion "q1" { questionTitle := "Name", questionType := "text" }] ∧
    (handleSaveChanges "q1" { questionTitle := "Name", questionType := "text" }
        { writeFails := true }).1.successMessage
      = some "Question added successfully." ∧
    (handleSaveChanges "q1" { questionTitle := "Name", questionType := "text" }
        { writeFails := true }).2.cell = none := by
  refine ⟨?_, ?_, ?_, ?_⟩ <;> decide

/-- C9 (amended): when the buffer is valid and the store write fails, the
commit keeps the in-memory change (the component state is exactly the one
a successful write would produce, success message included) and the store
is left unchanged; no error state is set, because every caller discards
the promise returned by saveToLocalStorage. -/
theorem C9_save_failure_silent (freshId : String) (s : ComponentState)
    (st : Store)
    (hv : ¬ (jsTrim s.questionTitle = "" ∨ jsTrim s.questionType = ""))
    (hfail : st.writeFails = true) :
    (handleSaveChanges freshId s st).2 = st ∧
    (handleSaveChanges freshId s st).1.error = s.error ∧
    (handleSaveChanges freshId s st).1
      = (handleSaveChanges freshId s { writeFails := false, cell := st.cell }).1 := by
  unfold handleSaveChanges
  simp only [if_neg hv]
  cases s.expanded <;> simp [saveToLocalStorage, hfail]

/-- Concrete failing store for the C9 witness. -/
def stC9 : Store := { writeFails := true, cell := some (StoredString.enc []) }

/-- Concrete valid-buffer state for the C9 witness. -/
def sC9 : ComponentState := { questionTitle := "Phone", questionType := "number" }

/-- Witness for C9 (amended) at a concrete valid buffer and failing
store. -/
theorem C9_save_failure_witness :
    (¬ (jsTrim sC9.questionTitle = "" ∨ jsTrim sC9.questionType = "")) ∧
    stC9.writeFails = true ∧
    ((handleSaveChanges "q9" sC9 stC9).2 = stC9 ∧
    (handleSaveChanges "q9" sC9 stC9).1.error = sC9.error ∧
    (handleSaveChanges "q9" sC9 stC9).1
      = (handleSaveChanges "q9" sC9 { writeFails := false, cell := stC9.cell }).1) :=
  ⟨by decide, rfl, C9_save_failure_silent "q9" sC9 stC9 (by decide) rfl⟩

/-- C10: a valid commit whose expanded id no longer occurs in the list
leaves the questions list unchanged (the in-place map matches nothing),
yet still sets the update success message, hides the form, collapses the
accordion and leaves the error state alone — a silent no-op on the list,
not an error. -/
theorem C10_update_missing_id_silent (freshId eid : String)
    (s : ComponentState) (st : Store) (he : s.expanded = some eid)
    (habs : eid ∉ s.questions.map Question.id)
    (hv : ¬ (jsTrim s.questionTitle = "" ∨ jsTrim s.questionType = "")) :
    (handleSaveChanges freshId s st).1.questions = s.questions ∧
    (handleSaveChanges freshId s st).1.successMessage
      = some "Question updated successfully." ∧
    (handleSaveChanges freshId s st).1.showForm = false ∧
    (handleSaveChanges freshId s st).1.expanded = none ∧
    (handleSaveChanges freshId s st).1.error = s.error := by
  unfold handleSaveChanges
  rw [if_neg hv, he]
  exact ⟨map_applyBufferTo_of_not_mem s eid s.questions habs, rfl, rfl, rfl, rfl⟩

/-- Concrete state for the C10 witness: one stored question "a", the
expanded id "z" dangling, a valid buffer. -/
def sC10 : ComponentState :=
  { questions := [qA], expanded := some "z",
    questionTitle := "New", questionType := "date" }

/-- Witness for C10 at the dangling expanded id "z". -/
theorem C10_update_missing_id_witness :
    sC10.expanded = some "z" ∧
    ("z" ∉ sC10.questions.map Question.id) ∧
    (¬ (jsTrim sC10.questionTitle = "" ∨ jsTrim sC10.questionType = "")) ∧
    ((handleSaveChanges "q0" sC10 { }).1.questions = sC10.questions ∧
    (handleSaveChanges "q0" sC10 { }).1.successMessage
      = some "Question updated successfully." ∧
    (handleSaveChanges "q0" sC10 { }).1.showForm = false ∧
    (handleSaveChanges "q0" sC10 { }).1.expanded = none ∧
    (handleSaveChanges "q0" sC10 { }).1.error = sC10.error) :=
  ⟨rfl, by decide, by decide,
   C10_update_missing_id_silent "q0" "z" sC10 { } rfl (by decide) (by decide)⟩

/-- A single valid commit changes the id list by appending the fresh id
when the new-question surface is active, and not at all when an accordion
id is the target (in-place update). -/
theorem applyStep_ids (e : EditStep) (s : ComponentState) (st : Store)
    (hv : jsTrim e.title ≠ "" ∧ jsTrim e.type ≠ "") :
    (applyStep e s st).1.questions.map Question.id
      = s.questions.map Question.id ++
          (match e.target with
           | none => [e.freshId]
           | some _ => []) := by
  unfold applyStep handleSaveChanges
  dsimp only
  rw [if_neg (not_or.mpr hv)]
  cases htar : e.target with
  | none =>
    dsimp only
    rw [List.map_append]
    rfl
  | some eid =>
    dsimp only
    rw [List.append_nil]
    exact map_id_applyBufferTo _ eid s.questions

/-- C4: along any sequence of valid commits whose generated ids are
globally fresh (pairwise distinct and absent from the initial list — the
uuid contract), the id list stays duplicate-free and only ever grows at
the end: the initial id list is a prefix of the final one (so every
previously-existing id keeps its position), and everything appended comes
from the generated fresh ids. -/
theorem C4_commit_sequence_unique_ids (steps : List EditStep)
    (s : ComponentState) (st : Store)
    (hnd : (s.questions.map Question.id).Nodup)
    (hv : ∀ e ∈ steps, jsTrim e.title ≠ "" ∧ jsTrim e.type ≠ "")
    (hfresh : ∀ e ∈ steps, e.freshId ∉ s.questions.map Question.id)
    (hsteps : (steps.map EditStep.freshId).Nodup) :
    ((applySteps steps s st).1.questions.map Question.id).Nodup ∧
    ∃ extra,
      (applySteps steps s st).1.questions.map Question.id
        = s.questions.map Question.id ++ extra ∧
      ∀ x ∈ extra, x ∈ steps.map EditStep.freshId := by
  induction steps generalizing s st with
  | nil =>
    exact ⟨hnd, [], (List.append_nil _).symm,
           fun x hx => absurd hx (List.not_mem_nil x)⟩
  | cons e rest ih =>
    have hve := hv e (List.mem_cons_self e rest)
    have hids := applyStep_ids e s st hve
    have hfe : e.freshId ∉ s.questions.map Question.id :=
      hfresh e (List.mem_cons_self e rest)
    rw [List.map_cons, List.nodup_cons] at hsteps
    obtain ⟨hnotin, hndrest⟩ := hsteps
    obtain ⟨δ, hδeq, hδcases⟩ :
        ∃ δ, (applyStep e s st).1.questions.map Question.id
            = s.questions.map Question.id ++ δ ∧ (δ = [] ∨ δ = [e.freshId]) := by
      cases htar : e.target with
      | none =>
        refine ⟨[e.freshId], ?_, Or.inr rfl⟩
        rw [hids, htar]
      | some eid =>
        refine ⟨[], ?_, Or.inl rfl⟩
        rw [hids, htar]
    have hδsub : ∀ x ∈ δ, x = e.freshId := by
      rcases hδcases with h | h <;> subst h
      · exact fun x hx => absurd hx (List.not_mem_nil x)
      · exact fun x hx => List.mem_singleton.mp hx
    have hnd1 : ((applyStep e s st).1.questions.map Question.id).Nodup := by
      rw [hδeq]
      refine List.nodup_append.mpr ⟨hnd, ?_, ?_⟩
      · rcases hδcases with h | h <;> subst h <;> simp
      · intro x hx hx'
        rw [hδsub x hx'] at hx
        exact hfe hx
    have hv1 : ∀ e' ∈ rest, jsTrim e'.title ≠ "" ∧ jsTrim e'.type ≠ "" :=
      fun e' he' => hv e' (List.mem_cons_of_mem e he')
    have hfresh1 : ∀ e' ∈ rest,
        e'.freshId ∉ (applyStep e s st).1.questions.map Question.id := by
      intro e' he' hmem
      rw [hδeq] at hmem
      rcases List.mem_append.mp hmem with h | h
      · exact hfresh e' (List.mem_cons_of_mem e he') h
      · exact hnotin (hδsub _ h ▸ List.mem_map.mpr ⟨e', he', rfl⟩)
    obtain ⟨ndFinal, extra', heq', hsub'⟩ :=
      ih (applyStep e s st).1 (applyStep e s st).2 hnd1 hv1 hfresh1 hndrest
    refine ⟨ndFinal, δ ++ extra', ?_, ?_⟩
    · show (applySteps rest (applyStep e s st).1 (applyStep e s st).2).1.questions.map
          Question.id = s.questions.map Question.id ++ (δ ++ extra')
      rw [heq', hδeq, List.append_assoc]
    · intro x hx
      rw [List.map_cons]
      rcases List.mem_append.mp hx with h | h
      · exact (hδsub x h) ▸ List.mem_cons_self _ _
      · exact List.mem_cons_of_mem _ (hsub' x h)

/-- First witness step: create question "a". -/
def stepNewA : EditStep :=
  { freshId := "a", title := "T1", type := "text", req := false, helper := "" }

/-- Second witness step: edit question "a" in place. -/
def stepEditA : EditStep :=
  { freshId := "c", title := "T1b", type := "date", req := true, helper := "h",
    target := some "a" }

/-- Third witness step: create question "b". -/
def stepNewB : EditStep :=
  { freshId := "b", title := "T2", type := "select", req := false, helper := "" }

/-- Witness for C4: create, edit in place, create again, starting from the
empty list. -/
theorem C4_commit_sequence_witness :
    (((({} : ComponentState)).questions.map Question.id).Nodup) ∧
    (∀ e ∈ [stepNewA, stepEditA, stepNewB],
      jsTrim e.title ≠ "" ∧ jsTrim e.type ≠ "") ∧
    (∀ e ∈ [stepNewA, stepEditA, stepNewB],
      e.freshId ∉ (({} : ComponentState)).questions.map Question.id) ∧
    (([stepNewA, stepEditA, stepNewB].map EditStep.freshId).Nodup) ∧
    (((applySteps [stepNewA, stepEditA, stepNewB] {} {}).1.questions.map
        Question.id).Nodup ∧
    ∃ extra,
      (applySteps [stepNewA, stepEditA, stepNewB] {} {}).1.questions.map
          Question.id
        = (({} : ComponentState)).questions.map Question.id ++ extra ∧
      ∀ x ∈ extra, x ∈ [stepNewA, stepEditA, stepNewB].map EditStep.freshId) :=
  ⟨by decide, by decide, by decide, by decide,
   C4_commit_sequence_unique_ids [stepNewA, stepEditA, stepNewB] {} {}
     (by decide) (by decide) (by decide) (by decide)⟩

end FormBuilder
